import Mathlib

/-!
Verification of the polling / orchestration lifecycle layer of the
Sandbox-API-Python client (files src/cloudshell/sandbox_rest/model.py,
api.py, exceptions.py, sandbox_context.py).  The Python code is shallowly
embedded: pydantic models become structures (restricted to the fields the
polling layer reads), the tenacity retry loop becomes an explicit
fuel-bounded recursion over a stream of fetched values, exceptions become
an error sum type, and the mutable controller becomes explicit state
passing that also records which external API calls were made.
-/

deriving instance DecidableEq for Except

namespace SandboxRest

/-! Enumerations from model.py -/

/-- SandboxStates enum of model.py (eight values, including the
PENDING_SETUP value whose wire string is Pending Setup). -/
inductive SandboxStates
  | pending
  | beforeSetup
  | pendingSetup
  | runningSetup
  | ready
  | error
  | teardown
  | ended
  deriving DecidableEq, Repr

/-- SandboxStates.get_post_setup_states from model.py. -/
def SandboxStates.get_post_setup_states : List SandboxStates :=
  [.ready, .error, .teardown, .ended]

/-- SandboxEventTypes enum of model.py. -/
inductive SandboxEventTypes
  | success
  | error
  deriving DecidableEq, Repr

/-- CommandExecutionStates enum of model.py. -/
inductive CommandExecutionStates
  | pending
  | running
  | stopping
  | cancelled
  | complete
  | failed
  deriving DecidableEq, Repr

/-- CommandExecutionStates.get_incomplete_execution_states from model.py. -/
def CommandExecutionStates.get_incomplete_execution_states : List CommandExecutionStates :=
  [.pending, .running]

/-- SandboxDetails of model.py, restricted to the fields the polling layer
reads (id and state). -/
structure SandboxDetails where
  id : String
  state : SandboxStates
  deriving DecidableEq, Repr

/-- SandboxEvent of model.py, restricted to the fields the polling layer
reads (id, event_type, event_text). -/
structure SandboxEvent where
  id : Nat
  event_type : SandboxEventTypes
  event_text : String
  deriving DecidableEq, Repr

/-- CommandExecutionDetails of model.py, restricted to the fields the
polling layer reads (id, status, output). -/
structure CommandExecutionDetails where
  id : String
  status : CommandExecutionStates
  output : String
  deriving DecidableEq, Repr

/-! Polling predicates from the bottom of api.py -/

/-- The helper _should_keep_polling_setup of api.py: keep polling while the
state is not one of the post-setup states. -/
def _should_keep_polling_setup (sandbox_details : SandboxDetails) : Bool :=
  if sandbox_details.state ∉ SandboxStates.get_post_setup_states then true else false

/-- The helper _should_keep_polling_teardown of api.py: keep polling while
the state is Teardown. -/
def _should_keep_polling_teardown (sandbox_details : SandboxDetails) : Bool :=
  if sandbox_details.state = SandboxStates.teardown then true else false

/-- The helper _should_keep_polling_execution of api.py: keep polling while
the execution status is one of the incomplete states. -/
def _should_keep_polling_execution (execution_data : CommandExecutionDetails) : Bool :=
  if execution_data.status ∈ CommandExecutionStates.get_incomplete_execution_states then true
  else false

/-! Exceptions from exceptions.py -/

/-- The exception types of exceptions.py that the polling layer raises.
FailedOrchestrationException defaults error_events to the empty list when
none are passed, so the two orchestration-failure constructors always carry
a concrete list. -/
inductive SandboxRestError
  | orchestrationPollingTimeout (message : String)
  | commandPollingTimeout (message : String)
  | setupFailedException (message : String) (error_events : List SandboxEvent)
  | teardownFailedException (message : String) (error_events : List SandboxEvent)
  | commandExecutionFailed (message : String)
  deriving DecidableEq, Repr

/-! The tenacity retry loop used by _poll_orchestration_state and
poll_command_execution in api.py -/

/-- One run of the tenacity loop of api.py: fetch results come from a
stream (the n-th API response); after each fetch the retry_if_result
predicate is consulted first, then the stop_after_delay condition.  Time is
idealized: each fetch is instantaneous and the loop sleeps wait seconds
between attempts, so attempt n happens n * wait seconds after the start and
stop_after_delay fires once that elapsed time reaches stopDelay.  The
result carries the number of fetch calls performed.  fuel bounds the
recursion; none means the run was cut off before tenacity decided, and an
error value is the RetryError that tenacity raises on stop. -/
def tenacityRun (fetch : Nat → α) (retryIfResult : α → Bool) (wait stopDelay : Nat) :
    Nat → Nat → Option (Except Unit (Nat × α))
  | 0, _ => none
  | fuel + 1, n =>
    let result := fetch n
    if retryIfResult result = false then some (.ok (n + 1, result))
    else if stopDelay ≤ n * wait then some (.error ())
    else tenacityRun fetch retryIfResult wait stopDelay fuel (n + 1)

/-- When the retry predicate holds on every fetched value, the loop ends in
RetryError as soon as the fuel window reaches the deadline. -/
theorem tenacityRun_timeout (fetch : Nat → α) (retryIfResult : α → Bool)
    (wait stopDelay : Nat)
    (hall : ∀ n, retryIfResult (fetch n) = true) :
    ∀ fuel n, 1 ≤ fuel → stopDelay ≤ (n + fuel - 1) * wait →
      tenacityRun fetch retryIfResult wait stopDelay fuel n = some (.error ()) := by
  intro fuel
  induction fuel with
  | zero => intro n h1 _; omega
  | succ f ih =>
    intro n _ hstop
    rw [tenacityRun]
    simp only [hall n]
    by_cases hn : stopDelay ≤ n * wait
    · simp [hn]
    · simp only [if_neg hn, reduceCtorEq, if_false]
      have hf : 1 ≤ f := by
        rcases Nat.eq_zero_or_pos f with h0 | h1
        · subst h0; simp at hstop; omega
        · exact h1
      have heq : n + (f + 1) - 1 = n + 1 + f - 1 := by omega
      rw [heq] at hstop
      exact ih (n + 1) hf hstop

/-- With positive wait, fuel stopDelay / wait + 2 is always enough for the
all-retry loop to reach its deadline. -/
theorem tenacityRun_timeout_fuel (fetch : Nat → α) (retryIfResult : α → Bool)
    (wait stopDelay : Nat) (hwait : 0 < wait)
    (hall : ∀ n, retryIfResult (fetch n) = true) :
    tenacityRun fetch retryIfResult wait stopDelay (stopDelay / wait + 2) 0 = some (.error ()) := by
  have hq : 0 + (stopDelay / wait + 2) - 1 = stopDelay / wait + 1 := by
    generalize stopDelay / wait = q
    omega
  have hmul : (stopDelay / wait + 1) * wait = wait * (stopDelay / wait) + wait := by ring
  have hb : stopDelay ≤ (0 + (stopDelay / wait + 2) - 1) * wait := by
    rw [hq, hmul]
    have hdm := Nat.div_add_mod stopDelay wait
    have hmod := Nat.mod_lt stopDelay hwait
    generalize stopDelay / wait = q at hdm ⊢
    generalize wait * q = m at hdm ⊢
    omega
  exact tenacityRun_timeout fetch retryIfResult wait stopDelay hall (stopDelay / wait + 2) 0
    (by omega) hb

/-- When the predicate holds on the first k fetches, fails on fetch k, and
the deadline is not reached during the first k attempts, the loop performs
exactly k + 1 fetch calls and returns fetch k. -/
theorem tenacityRun_stops (fetch : Nat → α) (retryIfResult : α → Bool)
    (wait stopDelay : Nat) :
    ∀ k n fuel, (∀ i, i < k → retryIfResult (fetch (n + i)) = true) →
      retryIfResult (fetch (n + k)) = false →
      (∀ i, i < k → (n + i) * wait < stopDelay) →
      k < fuel →
      tenacityRun fetch retryIfResult wait stopDelay fuel n = some (.ok (n + k + 1, fetch (n + k))) := by
  intro k
  induction k with
  | zero =>
    intro n fuel _ hstopPred _ hfuel
    match fuel, hfuel with
    | f + 1, _ =>
      rw [tenacityRun]
      simp at hstopPred
      simp [hstopPred]
  | succ k ih =>
    intro n fuel hcont hstopPred hdl hfuel
    match fuel, hfuel with
    | f + 1, hf =>
      rw [tenacityRun]
      have h0 : retryIfResult (fetch n) = true := by
        have := hcont 0 (Nat.succ_pos k)
        simpa using this
      have hd0 : n * wait < stopDelay := by
        have := hdl 0 (Nat.succ_pos k)
        simpa using this
      simp only [h0, reduceCtorEq, if_false, Nat.not_le.mpr hd0, if_false]
      have hres := ih (n + 1) f
        (fun i hi => by
          have := hcont (i + 1) (by omega)
          simpa [Nat.add_assoc, Nat.add_comm 1 i] using this)
        (by
          have : n + 1 + k = n + (k + 1) := by omega
          rw [this]; exact hstopPred)
        (fun i hi => by
          have := hdl (i + 1) (by omega)
          have heq : n + (i + 1) = n + 1 + i := by omega
          rwa [heq] at this)
        (by omega)
      rw [hres]
      have : n + 1 + k = n + (k + 1) := by omega
      rw [this]

/-! Activity endpoint: client wrapper from api.py over a collaborator
modelled from the spec -/

/-- Modelled from the spec: the server side of the activity endpoint
(getSandboxActivity of the external API client) is not part of this
repository.  Per the spec, events carry strictly increasing ids used as a
watermark, from_event_id is the id of the event where to start pulling
results from (so fetching from watermark + 1 reports only events after the
watermark), error_only filters to error events, and tail keeps only the
last tail entries. -/
def activityQuery (history : List SandboxEvent) (error_only : Bool)
    (from_event_id : Option Nat) (tail : Option Nat) : List SandboxEvent :=
  let fromFiltered := match from_event_id with
    | none => history
    | some i => history.filter (fun e => i ≤ e.id)
  let errFiltered := if error_only then
      fromFiltered.filter (fun e => e.event_type = SandboxEventTypes.error)
    else fromFiltered
  match tail with
  | none => errFiltered
  | some t => errFiltered.drop (errFiltered.length - t)

/-- get_sandbox_activity of api.py: each request parameter is added only
when truthy, so from_event_id = 0 and tail = 0 are dropped (Python
falsiness) before the query reaches the server. -/
def get_sandbox_activity (history : List SandboxEvent) (error_only : Bool)
    (from_event_id : Option Nat) (tail : Option Nat) : List SandboxEvent :=
  let from_param := match from_event_id with
    | some i => if i = 0 then none else some i
    | none => none
  let tail_param := match tail with
    | some t => if t = 0 then none else some t
    | none => none
  activityQuery history error_only from_param tail_param

/-! Exception message strings built by api.py -/

/-- Message of the OrchestrationPollingTimeout raised by
_poll_orchestration_state in api.py. -/
def orchestrationTimeoutMsg (max_polling_minutes : Nat) : String :=
  s!"Sandbox Polling timed out after {max_polling_minutes} minutes"

/-- Message of the SetupFailedException raised by poll_sandbox_setup in
api.py. -/
def setupFailedMsg (sandbox_id : String) : String :=
  s!"Sandbox setup failed - sandbox id: {sandbox_id}"

/-- Message of the TeardownFailedException raised by poll_sandbox_teardown
in api.py. -/
def teardownFailedMsg (reservation_id : String) : String :=
  s!"Failed teardown - sandbox id: {reservation_id}"

/-- Message of the TeardownFailedException raised by stop_sandbox in api.py
when the acknowledgement result does not contain success. -/
def stopRejectedMsg (result : String) : String :=
  s!"Failed to stop sandbox. result: {result}"

/-- Message of the CommandPollingTimeout raised by poll_command_execution
in api.py. -/
def commandTimeoutMsg (execution_id : String) (max_polling_minutes : Nat) : String :=
  s!"Execution {execution_id} timed out after {max_polling_minutes} minutes"

/-! Orchestration functions from api.py.  Each takes the stream of
responses the external API would return for its repeated
get_sandbox_details / get_execution_details calls, and the activity
history snapshots at the moments the activity endpoint is consulted. -/

/-- _poll_orchestration_state of api.py: run the tenacity loop over the
sandbox-details stream and turn RetryError into
OrchestrationPollingTimeout. -/
def _poll_orchestration_state (fetch : Nat → SandboxDetails)
    (polling_func : SandboxDetails → Bool)
    (max_polling_minutes polling_frequency_seconds fuel : Nat) :
    Option (Except SandboxRestError (Nat × SandboxDetails)) :=
  match tenacityRun fetch polling_func polling_frequency_seconds
      (max_polling_minutes * 60) fuel 0 with
  | none => none
  | some (.error ()) =>
    some (.error (.orchestrationPollingTimeout (orchestrationTimeoutMsg max_polling_minutes)))
  | some (.ok r) => some (.ok r)

/-- poll_sandbox_setup of api.py: poll with _should_keep_polling_setup;
when the final state is Error, fetch the error-only activity events and
raise SetupFailedException carrying them; otherwise return the final
snapshot.  history is the activity history at the moment the error query
runs. -/
def poll_sandbox_setup (fetch : Nat → SandboxDetails) (history : List SandboxEvent)
    (max_polling_minutes polling_frequency_seconds fuel : Nat) :
    Option (Except SandboxRestError SandboxDetails) :=
  match _poll_orchestration_state fetch _should_keep_polling_setup
      max_polling_minutes polling_frequency_seconds fuel with
  | none => none
  | some (.error e) => some (.error e)
  | some (.ok (_, sandbox_details)) =>
    let sandbox_id := sandbox_details.id
    if sandbox_details.state = SandboxStates.error then
      let error_activity := get_sandbox_activity history true none none
      some (.error (.setupFailedException (setupFailedMsg sandbox_id) error_activity))
    else some (.ok sandbox_details)

/-- poll_sandbox_teardown of api.py: record the id of the latest activity
event as a watermark (0 when there are none), poll with
_should_keep_polling_teardown, then fetch the error-only events passing
from_event_id = watermark itself (the source passes latest_event_id, not
latest_event_id + 1); raise TeardownFailedException iff that list is
nonempty.  history_pre is the activity history when the watermark is read,
history_post the history when the error query runs. -/
def poll_sandbox_teardown (reservation_id : String) (fetch : Nat → SandboxDetails)
    (history_pre history_post : List SandboxEvent)
    (max_polling_minutes polling_frequency_seconds fuel : Nat) :
    Option (Except SandboxRestError SandboxDetails) :=
  let latest_event_request := get_sandbox_activity history_pre false none (some 1)
  let latest_event_id := match latest_event_request with
    | e :: _ => e.id
    | [] => 0
  match _poll_orchestration_state fetch _should_keep_polling_teardown
      max_polling_minutes polling_frequency_seconds fuel with
  | none => none
  | some (.error e) => some (.error e)
  | some (.ok (_, sandbox_details)) =>
    let teardown_error_events :=
      get_sandbox_activity history_post true (some latest_event_id) none
    if teardown_error_events ≠ [] then
      some (.error (.teardownFailedException (teardownFailedMsg reservation_id)
        teardown_error_events))
    else some (.ok sandbox_details)

/-- poll_command_execution of api.py: one extra get_execution_details call
happens before the tenacity loop starts (its result only feeds the timeout
message), so the loop consumes the stream from index 1; RetryError becomes
CommandPollingTimeout and otherwise the last fetched execution details are
returned unconditionally - the Failed status is not special-cased. -/
def poll_command_execution (fetch : Nat → CommandExecutionDetails)
    (max_polling_minutes polling_frequency_seconds fuel : Nat) :
    Option (Except SandboxRestError CommandExecutionDetails) :=
  let pre_poll_execution_details := fetch 0
  match tenacityRun (fun n => fetch (n + 1)) _should_keep_polling_execution
      polling_frequency_seconds (max_polling_minutes * 60) fuel 0 with
  | none => none
  | some (.error ()) =>
    some (.error (.commandPollingTimeout
      (commandTimeoutMsg pre_poll_execution_details.id max_polling_minutes)))
  | some (.ok (_, execution_details)) => some (.ok execution_details)

/-- Character-list version of the Python substring test: does the haystack
start with the needle. -/
def startsWithChars : List Char → List Char → Bool
  | [], _ => true
  | _ :: _, [] => false
  | a :: as, b :: bs => (a == b) && startsWithChars as bs

/-- Character-list version of the Python substring test: does the needle
occur contiguously inside the haystack. -/
def charListHasSub (needle : List Char) : List Char → Bool
  | [] => decide (needle = [])
  | c :: rest => startsWithChars needle (c :: rest) || charListHasSub needle rest

/-- The success check of stop_sandbox in api.py: the literal success must
occur inside the acknowledgement result string. -/
def stopAckSuccessful (result : String) : Bool :=
  charListHasSub "success".toList result.toList

/-- stop_sandbox of api.py with poll_teardown = true: when the
acknowledgement result does not contain success, raise
TeardownFailedException immediately (no error_events are passed, so the
list defaults to empty) before any teardown polling; otherwise run
poll_sandbox_teardown. -/
def stop_sandbox_poll (sandbox_id : String) (ack_result : String)
    (fetch : Nat → SandboxDetails) (history_pre history_post : List SandboxEvent)
    (max_polling_minutes polling_frequency_seconds fuel : Nat) :
    Option (Except SandboxRestError SandboxDetails) :=
  if stopAckSuccessful ack_result = false then
    some (.error (.teardownFailedException (stopRejectedMsg ack_result) []))
  else
    poll_sandbox_teardown sandbox_id fetch history_pre history_post
      max_polling_minutes polling_frequency_seconds fuel

/-! Lifecycle controller from sandbox_context.py -/

/-- The mutable state of SandboxControllerContext in sandbox_context.py,
restricted to the fields its lifecycle methods read or write (the cached
components object and the api handle are elided; sandbox_request is
whether a SandboxStartRequest object was passed to init). -/
structure SandboxControllerContext where
  sandbox_id : Option String
  sandbox_request : Bool
  setup_duration_seconds : Option Nat
  teardown_duration_seconds : Option Nat
  setup_errors : Option (List SandboxEvent)
  teardown_errors : Option (List SandboxEvent)
  deriving DecidableEq, Repr

/-- Python truthiness of an optional string: None and the empty string are
falsy. -/
def optStrTruthy : Option String → Bool
  | none => false
  | some s => decide (s ≠ "")

/-- Python truthiness of an optional number: None and 0 are falsy. -/
def optNatTruthy : Option Nat → Bool
  | none => false
  | some n => decide (n ≠ 0)

/-- The external api calls the controller can issue, recorded as an effect
trace.  startSandbox and stopSandbox are the start / stop requests;
pollSetup is the blocking poll_sandbox_setup call (the stop request of
teardown already includes its own polling); getComponents is the
refresh_components fetch. -/
inductive ApiCall
  | startSandbox
  | stopSandbox
  | pollSetup
  | getComponents
  deriving DecidableEq, Repr

/-- An exception escaping a controller method: either a plain ValueError
raised by the method itself, or a SandboxRestError propagating from the
api. -/
inductive ControllerError
  | valueError (message : String)
  | apiError (e : SandboxRestError)
  deriving DecidableEq, Repr

/-- launch_sandbox of sandbox_context.py.  start_id is the sandbox id that
the start_sandbox api call would return, setup_result the outcome of the
poll_sandbox_setup call, and setup_duration the measured timer difference.
A truthy sandbox_id means an early return; a missing request object raises
ValueError; only SetupFailedException is caught (its events stored, then
re-raised) while any other api error propagates untouched; on success the
duration is stored and components refreshed.  Returns the new state, the
trace of external calls, and the escaping exception when there is one. -/
def launch_sandbox (ctx : SandboxControllerContext) (start_id : String)
    (setup_result : Except SandboxRestError SandboxDetails) (setup_duration : Nat) :
    SandboxControllerContext × List ApiCall × Option ControllerError :=
  if optStrTruthy ctx.sandbox_id then (ctx, [], none)
  else if ctx.sandbox_request = false then
    (ctx, [], some (.valueError "No StartSandboxRequest object passed to init"))
  else
    let ctx1 := { ctx with sandbox_id := some start_id }
    match setup_result with
    | .error e =>
      match e with
      | .setupFailedException msg events =>
        ({ ctx1 with setup_errors := some events }, [.startSandbox, .pollSetup],
          some (.apiError (.setupFailedException msg events)))
      | e2 => (ctx1, [.startSandbox, .pollSetup], some (.apiError e2))
    | .ok _ =>
      ({ ctx1 with setup_duration_seconds := some setup_duration },
        [.startSandbox, .pollSetup, .getComponents], none)

/-- teardown_sandbox of sandbox_context.py.  stop_result is the outcome of
the stop_sandbox api call made with poll_teardown = true, teardown_duration
the measured timer difference.  A falsy sandbox_id means an early return.
The guard on teardown_duration_seconds only writes a debug log - the source
has no return statement in its body - so the stop request is issued again
even when teardown already completed.  Only TeardownFailedException is
caught (its events stored, then re-raised); any other api error propagates
untouched; on success the duration is stored and components refreshed. -/
def teardown_sandbox (ctx : SandboxControllerContext)
    (stop_result : Except SandboxRestError SandboxDetails) (teardown_duration : Nat) :
    SandboxControllerContext × List ApiCall × Option ControllerError :=
  if optStrTruthy ctx.sandbox_id = false then (ctx, [], none)
  else
    match stop_result with
    | .error e =>
      match e with
      | .teardownFailedException msg events =>
        ({ ctx with teardown_errors := some events }, [.stopSandbox],
          some (.apiError (.teardownFailedException msg events)))
      | e2 => (ctx, [.stopSandbox], some (.apiError e2))
    | .ok _ =>
      ({ ctx with teardown_duration_seconds := some teardown_duration },
        [.stopSandbox, .getComponents], none)

/-- An exception in flight inside the with-block: either one raised by the
scope body (tagged with a label) or a ControllerError from the controller
itself. -/
inductive PyExc
  | body (tag : String)
  | controller (e : ControllerError)
  deriving DecidableEq, Repr

/-- The controller method that dunder-exit runs is teardown_sandbox, and
the method then returns self.  In Python the truthiness of the value
returned by the exit method decides whether an in-flight exception is
suppressed, and self - a plain object - is always truthy. -/
def context_exit (ctx : SandboxControllerContext)
    (stop_result : Except SandboxRestError SandboxDetails) (teardown_duration : Nat) :
    (SandboxControllerContext × List ApiCall × Option ControllerError) × Bool :=
  (teardown_sandbox ctx stop_result teardown_duration, true)

/-- Python with-statement exit semantics applied to the controller:
body_exc is the exception the scope body raised (none when it completed).
The exit method always runs; when it raises, its exception propagates
(replacing the body exception); when it returns a truthy value, any body
exception is suppressed; otherwise the body exception propagates.  Returns
the final controller state, the external calls made during exit, and the
exception that reaches the caller of the with-block. -/
def with_block_exit (body_exc : Option PyExc) (ctx : SandboxControllerContext)
    (stop_result : Except SandboxRestError SandboxDetails) (teardown_duration : Nat) :
    SandboxControllerContext × List ApiCall × Option PyExc :=
  match context_exit ctx stop_result teardown_duration with
  | ((ctx2, calls, some e), _) => (ctx2, calls, some (.controller e))
  | ((ctx2, calls, none), exit_ret) =>
    match body_exc with
    | some e => if exit_ret then (ctx2, calls, none) else (ctx2, calls, some e)
    | none => (ctx2, calls, none)

/-! Concrete fixtures used by the claim theorems -/

/-- A snapshot still in setup. -/
def setupSnapshot : SandboxDetails := ⟨"sb-1", .runningSetup⟩

/-- A snapshot in the Ready state. -/
def readySnapshot : SandboxDetails := ⟨"sb-1", .ready⟩

/-- A snapshot in the Error state. -/
def errorSnapshot : SandboxDetails := ⟨"sb-1", .error⟩

/-- A snapshot in the Teardown state. -/
def teardownSnapshot : SandboxDetails := ⟨"sb-1", .teardown⟩

/-- A snapshot in the Ended state. -/
def endedSnapshot : SandboxDetails := ⟨"sb-1", .ended⟩

/-- The setup-phase error event of the watermark scenario, id 5. -/
def setupErrorEvent : SandboxEvent := ⟨5, .error, "setup step failed"⟩

/-- The teardown-phase error event of the watermark scenario, id 9. -/
def teardownErrorEvent : SandboxEvent := ⟨9, .error, "teardown step failed"⟩

/-- A details stream for a teardown poll: one Teardown snapshot, then
Ended. -/
def teardownFetch : Nat → SandboxDetails :=
  fun n => if n = 0 then teardownSnapshot else endedSnapshot

/-- The activity history at the moment poll_sandbox_teardown records its
watermark: a success event and the setup-phase error event id 5 (the
latest). -/
def watermarkHistoryPre : List SandboxEvent :=
  [⟨3, .success, "setup started"⟩, setupErrorEvent]

/-- The activity history after teardown: the pre history extended by a
success event and the teardown-phase error event id 9. -/
def watermarkHistoryPost : List SandboxEvent :=
  watermarkHistoryPre ++ [⟨7, .success, "teardown started"⟩, teardownErrorEvent]

/-! Claim C1 -/

/-- Claim C1 (code bug): poll_sandbox_teardown records watermark 5 (the id
of the latest event) but then queries error events with from_event_id equal
to the watermark itself instead of watermark + 1, so on a history with a
setup-phase error event id 5 at the watermark and a teardown-phase error
event id 9, the TeardownFailedException carries the id 5 event as well -
the claim says it must carry only the id 9 event. -/
theorem claim_C1_watermark_bug :
    poll_sandbox_teardown "sb-1" teardownFetch watermarkHistoryPre watermarkHistoryPost
        20 30 5 =
      some (.error (.teardownFailedException (teardownFailedMsg "sb-1")
        [setupErrorEvent, teardownErrorEvent])) ∧
    setupErrorEvent.id = 5 ∧
    setupErrorEvent ∈ [setupErrorEvent, teardownErrorEvent] := by
  refine ⟨by decide, rfl, by decide⟩

/-! Claim C2 -/

/-- Controller state for the exit scenario: an owned sandbox, setup
already completed. -/
def launchedCtx : SandboxControllerContext :=
  ⟨some "sb-1", false, some 120, none, none, none⟩

/-- Claim C2 (code bug): on exit of the with-block the controller does run
teardown_sandbox unconditionally, but its exit method ends in return self,
a truthy value, so a body exception that was in flight is suppressed
instead of propagating: with a raising body and a successful teardown the
with-block finishes with no exception at all. -/
theorem claim_C2_exit_suppresses_body_exception :
    with_block_exit (some (.body "RuntimeError")) launchedCtx (.ok endedSnapshot) 7 =
      ({ launchedCtx with teardown_duration_seconds := some 7 },
        [.stopSandbox, .getComponents], none) ∧
    ApiCall.stopSandbox ∈
      (with_block_exit (some (.body "RuntimeError")) launchedCtx (.ok endedSnapshot) 7).2.1 ∧
    (with_block_exit (some (.body "RuntimeError")) launchedCtx (.ok endedSnapshot) 7).2.2
      = none := by
  refine ⟨by decide, by decide, by decide⟩

/-! Claim C3 -/

/-- Controller state after a completed teardown: duration recorded. -/
def tornDownCtx : SandboxControllerContext :=
  ⟨some "sb-1", false, some 120, some 42, none, none⟩

/-- Claim C3 (code bug): launch_sandbox is idempotent - with a truthy
sandbox_id it makes no external call and leaves the state unchanged - but
teardown_sandbox is not: with teardown_duration_seconds already recorded
its guard only logs (the source lacks the return), so a second call still
issues the external stop request. -/
theorem claim_C3_teardown_not_idempotent :
    launch_sandbox tornDownCtx "sb-2" (.ok readySnapshot) 3 = (tornDownCtx, [], none) ∧
    teardown_sandbox tornDownCtx (.ok endedSnapshot) 9 =
      ({ tornDownCtx with teardown_duration_seconds := some 9 },
        [.stopSandbox, .getComponents], none) ∧
    ApiCall.stopSandbox ∈ (teardown_sandbox tornDownCtx (.ok endedSnapshot) 9).2.1 := by
  refine ⟨by decide, by decide, by decide⟩

/-! Claim C7 -/

/-- Claim C7 counterexample: the SandboxStates enum also holds the value
pendingSetup (wire string Pending Setup), _should_keep_polling_setup
returns true on it, yet it is not among the three states the claim allows,
so the predicate is not false on every state outside Pending, BeforeSetup,
Setup. -/
theorem claim_C7_counterexample :
    _should_keep_polling_setup ⟨"sb-1", .pendingSetup⟩ = true ∧
    SandboxStates.pendingSetup ∉
      [SandboxStates.pending, SandboxStates.beforeSetup, SandboxStates.runningSetup] := by
  refine ⟨by decide, by decide⟩

/-- Claim C7 (amended): _should_keep_polling_setup is true for exactly the
four states Pending, BeforeSetup, PendingSetup, Setup (the complement of
the post-setup states) and false on every other SandboxState value;
_should_keep_polling_teardown is true exactly on Teardown; and
_should_keep_polling_execution is true for exactly the statuses Pending and
Running. -/
theorem claim_C7_predicates_exhaustive :
    (∀ d : SandboxDetails, _should_keep_polling_setup d =
      decide (d.state ∈ [SandboxStates.pending, SandboxStates.beforeSetup,
        SandboxStates.pendingSetup, SandboxStates.runningSetup])) ∧
    (∀ d : SandboxDetails, _should_keep_polling_teardown d =
      decide (d.state = SandboxStates.teardown)) ∧
    (∀ e : CommandExecutionDetails, _should_keep_polling_execution e =
      decide (e.status ∈ [CommandExecutionStates.pending, CommandExecutionStates.running])) := by
  refine ⟨?_, ?_, ?_⟩
  · intro d
    obtain ⟨i, st⟩ := d
    cases st <;> rfl
  · intro d
    obtain ⟨i, st⟩ := d
    cases st <;> rfl
  · intro e
    obtain ⟨i, st, o⟩ := e
    cases st <;> rfl

/-! Claim C4 -/

/-- Claim C4: when the continue-predicate stays true on every fetched
snapshot (for example a stub that always returns state Setup) and the
polling interval is positive, poll_sandbox_setup terminates within a fuel
budget of deadline / interval + 2 attempts and raises
OrchestrationPollingTimeout - never SetupFailedException and never an
indefinite hang. -/
theorem claim_C4_timeout (fetch : Nat → SandboxDetails) (history : List SandboxEvent)
    (max_polling_minutes polling_frequency_seconds : Nat)
    (hfreq : 0 < polling_frequency_seconds)
    (hall : ∀ n, _should_keep_polling_setup (fetch n) = true) :
    poll_sandbox_setup fetch history max_polling_minutes polling_frequency_seconds
        (max_polling_minutes * 60 / polling_frequency_seconds + 2) =
      some (.error (.orchestrationPollingTimeout
        (orchestrationTimeoutMsg max_polling_minutes))) := by
  unfold poll_sandbox_setup _poll_orchestration_state
  rw [tenacityRun_timeout_fuel fetch _should_keep_polling_setup polling_frequency_seconds
    (max_polling_minutes * 60) hfreq hall]

/-- Claim C4 witness: a stub that always answers the Setup state, polled
with a 2 minute budget at 1 second intervals, ends in
OrchestrationPollingTimeout. -/
theorem claim_C4_timeout_witness :
    (0 : Nat) < 1 ∧
    _should_keep_polling_setup setupSnapshot = true ∧
    poll_sandbox_setup (fun _ => setupSnapshot) [] 2 1 122 =
      some (.error (.orchestrationPollingTimeout (orchestrationTimeoutMsg 2))) :=
  ⟨by decide, by decide,
    claim_C4_timeout (fun _ => setupSnapshot) [] 2 1 (by decide) (fun _ => rfl)⟩

/-! Claim C5 -/

/-- Claim C5: whenever the setup polling loop stops by predicate (not by
timeout), a final snapshot in the Error state makes poll_sandbox_setup
fetch the error-only activity events and raise SetupFailedException whose
attached events are exactly that fetched list, while a final snapshot in
the Ready state is returned without raising. -/
theorem claim_C5_setup_terminal (fetch : Nat → SandboxDetails) (history : List SandboxEvent)
    (max_polling_minutes polling_frequency_seconds fuel k : Nat) (final : SandboxDetails)
    (hstop : tenacityRun fetch _should_keep_polling_setup polling_frequency_seconds
      (max_polling_minutes * 60) fuel 0 = some (.ok (k, final))) :
    (final.state = SandboxStates.error →
      poll_sandbox_setup fetch history max_polling_minutes polling_frequency_seconds fuel =
        some (.error (.setupFailedException (setupFailedMsg final.id)
          (get_sandbox_activity history true none none)))) ∧
    (final.state = SandboxStates.ready →
      poll_sandbox_setup fetch history max_polling_minutes polling_frequency_seconds fuel =
        some (.ok final)) := by
  unfold poll_sandbox_setup _poll_orchestration_state
  rw [hstop]
  constructor
  · intro h
    simp [h]
  · intro h
    simp [h]

/-- A details stream that answers Setup once and then the Error state. -/
def setupThenErrorFetch : Nat → SandboxDetails :=
  fun n => if n = 0 then setupSnapshot else errorSnapshot

/-- Claim C5 witness: with a stub returning Setup then Error and an
activity history holding one error event, poll_sandbox_setup raises
SetupFailedException carrying exactly that event. -/
theorem claim_C5_setup_terminal_witness :
    tenacityRun setupThenErrorFetch _should_keep_polling_setup 30 (20 * 60) 5 0 =
      some (.ok (2, errorSnapshot)) ∧
    poll_sandbox_setup setupThenErrorFetch [setupErrorEvent] 20 30 5 =
      some (.error (.setupFailedException (setupFailedMsg "sb-1") [setupErrorEvent])) :=
  ⟨by decide,
    (claim_C5_setup_terminal setupThenErrorFetch [setupErrorEvent] 20 30 5 2 errorSnapshot
      (by decide)).1 rfl⟩

/-! Claim C6 -/

/-- Execution details stuck in the Failed status. -/
def failedExecution : CommandExecutionDetails := ⟨"ex-1", .failed, "command blew up"⟩

/-- Claim C6 counterexample: with a stub whose execution status is Failed,
the polling loop stops at once and poll_command_execution returns the
details as a success value instead of failing with CommandExecutionFailed
as the claim requires. -/
theorem claim_C6_counterexample :
    poll_command_execution (fun _ => failedExecution) 10 30 5 = some (.ok failedExecution) ∧
    failedExecution.status = CommandExecutionStates.failed := by
  refine ⟨by decide, rfl⟩

/-- Claim C6 (amended): whenever the command polling loop stops by
predicate (not by timeout), poll_command_execution returns the last fetched
execution details - including the captured output - for every stopping
status, Failed included; CommandExecutionFailed is never raised (only the
superseded polling.py variant raised it). -/
theorem claim_C6_returns_details (fetch : Nat → CommandExecutionDetails)
    (max_polling_minutes polling_frequency_seconds fuel k : Nat)
    (final : CommandExecutionDetails)
    (hstop : tenacityRun (fun n => fetch (n + 1)) _should_keep_polling_execution
      polling_frequency_seconds (max_polling_minutes * 60) fuel 0 = some (.ok (k, final))) :
    poll_command_execution fetch max_polling_minutes polling_frequency_seconds fuel =
      some (.ok final) := by
  unfold poll_command_execution
  rw [hstop]

/-- Claim C6 witness: the Failed stub makes the loop stop on its first
fetch and the details are returned unchanged. -/
theorem claim_C6_returns_details_witness :
    tenacityRun (fun n => (fun _ => failedExecution) (n + 1)) _should_keep_polling_execution
      30 (10 * 60) 5 0 = some (.ok (1, failedExecution)) ∧
    poll_command_execution (fun _ => failedExecution) 10 30 5 = some (.ok failedExecution) :=
  ⟨by decide,
    claim_C6_returns_details (fun _ => failedExecution) 10 30 5 1 failedExecution (by decide)⟩

/-! Claim C8 -/

/-- Claim C8: when polling ends in OrchestrationPollingTimeout, launch and
teardown leave both setup_errors and teardown_errors untouched and let the
timeout exception - its own constructor, distinct from the domain
failures - propagate; conversely setup_errors can only change when the poll
raised SetupFailedException and teardown_errors only when it raised
TeardownFailedException. -/
theorem claim_C8_timeout_frame :
    (∀ (ctx : SandboxControllerContext) (start_id m : String) (d : Nat),
      optStrTruthy ctx.sandbox_id = false → ctx.sandbox_request = true →
      (launch_sandbox ctx start_id (.error (.orchestrationPollingTimeout m)) d).1.setup_errors
          = ctx.setup_errors ∧
      (launch_sandbox ctx start_id (.error (.orchestrationPollingTimeout m)) d).1.teardown_errors
          = ctx.teardown_errors ∧
      (launch_sandbox ctx start_id (.error (.orchestrationPollingTimeout m)) d).2.2
          = some (.apiError (.orchestrationPollingTimeout m))) ∧
    (∀ (ctx : SandboxControllerContext) (m : String) (d : Nat),
      optStrTruthy ctx.sandbox_id = true →
      (teardown_sandbox ctx (.error (.orchestrationPollingTimeout m)) d).1.setup_errors
          = ctx.setup_errors ∧
      (teardown_sandbox ctx (.error (.orchestrationPollingTimeout m)) d).1.teardown_errors
          = ctx.teardown_errors ∧
      (teardown_sandbox ctx (.error (.orchestrationPollingTimeout m)) d).2.2
          = some (.apiError (.orchestrationPollingTimeout m))) ∧
    (∀ (ctx : SandboxControllerContext) (start_id : String)
        (res : Except SandboxRestError SandboxDetails) (d : Nat),
      (launch_sandbox ctx start_id res d).1.setup_errors ≠ ctx.setup_errors →
      ∃ msg events, res = .error (.setupFailedException msg events)) ∧
    (∀ (ctx : SandboxControllerContext) (res : Except SandboxRestError SandboxDetails)
        (d : Nat),
      (teardown_sandbox ctx res d).1.teardown_errors ≠ ctx.teardown_errors →
      ∃ msg events, res = .error (.teardownFailedException msg events)) := by
  refine ⟨?_, ?_, ?_, ?_⟩
  · intro ctx start_id m d h1 h2
    unfold launch_sandbox
    simp [h1, h2]
  · intro ctx m d h
    unfold teardown_sandbox
    simp [h]
  · intro ctx start_id res d h
    unfold launch_sandbox at h
    by_cases h1 : optStrTruthy ctx.sandbox_id
    · simp [h1] at h
    · by_cases h2 : ctx.sandbox_request = false
      · simp [h1, h2] at h
      · rcases res with e | v
        · cases e <;> simp [h1, h2] at h
          rename_i msg events
          exact ⟨msg, events, rfl⟩
        · simp [h1, h2] at h
  · intro ctx res d h
    unfold teardown_sandbox at h
    by_cases h1 : optStrTruthy ctx.sandbox_id
    · rcases res with e | v
      · cases e <;> simp [h1] at h
        rename_i msg events
        exact ⟨msg, events, rfl⟩
      · simp [h1] at h
    · simp [h1] at h

/-- A controller state holding no sandbox yet but a start request. -/
def freshCtx : SandboxControllerContext := ⟨none, true, none, none, none, none⟩

/-- Claim C8 witness: a launch whose setup poll times out and a teardown
whose teardown poll times out both leave the error fields untouched and
surface the timeout. -/
theorem claim_C8_timeout_frame_witness :
    optStrTruthy freshCtx.sandbox_id = false ∧
    freshCtx.sandbox_request = true ∧
    optStrTruthy launchedCtx.sandbox_id = true ∧
    ((launch_sandbox freshCtx "sb-1" (.error (.orchestrationPollingTimeout "late")) 3).1.setup_errors
        = freshCtx.setup_errors ∧
      (launch_sandbox freshCtx "sb-1" (.error (.orchestrationPollingTimeout "late")) 3).1.teardown_errors
        = freshCtx.teardown_errors ∧
      (launch_sandbox freshCtx "sb-1" (.error (.orchestrationPollingTimeout "late")) 3).2.2
        = some (.apiError (.orchestrationPollingTimeout "late"))) ∧
    ((teardown_sandbox launchedCtx (.error (.orchestrationPollingTimeout "late")) 4).1.setup_errors
        = launchedCtx.setup_errors ∧
      (teardown_sandbox launchedCtx (.error (.orchestrationPollingTimeout "late")) 4).1.teardown_errors
        = launchedCtx.teardown_errors ∧
      (teardown_sandbox launchedCtx (.error (.orchestrationPollingTimeout "late")) 4).2.2
        = some (.apiError (.orchestrationPollingTimeout "late"))) :=
  ⟨by decide, by decide, by decide,
    claim_C8_timeout_frame.1 freshCtx "sb-1" "late" 3 (by decide) (by decide),
    claim_C8_timeout_frame.2.1 launchedCtx "late" 4 (by decide)⟩

/-! Claim C9 -/

/-- Claim C9: the polling loop fetches once immediately and refetches
after each continuing result, so when the setup continue-predicate holds on
the first k snapshots, fails on snapshot k, and the deadline is not reached
during those attempts, the loop performs exactly k + 1 fetch calls and
yields snapshot k. -/
theorem claim_C9_fetch_count (fetch : Nat → SandboxDetails)
    (k wait stopDelay fuel : Nat)
    (hcont : ∀ i, i < k → _should_keep_polling_setup (fetch i) = true)
    (hstopPred : _should_keep_polling_setup (fetch k) = false)
    (hdl : ∀ i, i < k → i * wait < stopDelay)
    (hfuel : k < fuel) :
    tenacityRun fetch _should_keep_polling_setup wait stopDelay fuel 0 =
      some (.ok (k + 1, fetch k)) := by
  have h := tenacityRun_stops fetch _should_keep_polling_setup wait stopDelay k 0 fuel
    (fun i hi => by simpa using hcont i hi)
    (by simpa using hstopPred)
    (fun i hi => by simpa using hdl i hi)
    hfuel
  simpa using h

/-- The scripted details stream Setup, Setup, Ready. -/
def setupSetupReadyFetch : Nat → SandboxDetails :=
  fun n => if n = 0 then setupSnapshot else if n = 1 then setupSnapshot else readySnapshot

/-- Claim C9 witness: the scripted sequence Setup, Setup, Ready with a zero
interval produces exactly 3 fetch calls and the Ready snapshot. -/
theorem claim_C9_fetch_count_witness :
    _should_keep_polling_setup (setupSetupReadyFetch 0) = true ∧
    _should_keep_polling_setup (setupSetupReadyFetch 1) = true ∧
    _should_keep_polling_setup (setupSetupReadyFetch 2) = false ∧
    tenacityRun setupSetupReadyFetch _should_keep_polling_setup 0 (20 * 60) 5 0 =
      some (.ok (3, readySnapshot)) :=
  ⟨by decide, by decide, by decide,
    claim_C9_fetch_count setupSetupReadyFetch 2 0 (20 * 60) 5
      (by intro i hi; interval_cases i <;> rfl)
      (by decide)
      (by intro i hi; omega)
      (by omega)⟩

/-! Claim C10 -/

/-- The _poll_orchestration_state wrapper can only fail with the
orchestration timeout. -/
theorem _poll_orchestration_state_error_is_timeout (fetch : Nat → SandboxDetails)
    (polling_func : SandboxDetails → Bool)
    (max_polling_minutes polling_frequency_seconds fuel : Nat)
    (e : SandboxRestError)
    (h : _poll_orchestration_state fetch polling_func max_polling_minutes
      polling_frequency_seconds fuel = some (.error e)) :
    e = .orchestrationPollingTimeout (orchestrationTimeoutMsg max_polling_minutes) := by
  unfold _poll_orchestration_state at h
  rcases htr : tenacityRun fetch polling_func polling_frequency_seconds
      (max_polling_minutes * 60) fuel 0 with _ | r
  · rw [htr] at h
    cases h
  · rcases r with u | p
    · rw [htr] at h
      cases u
      injection h with h2
      injection h2 with h3
      exact h3.symm
    · rw [htr] at h
      cases h

/-- Claim C10 counterexample: a rejected stop request and a teardown that
errored raise the same exception type, but not with the same error_events
shape - the rejected stop carries the empty list while the poll failure
here carries the id 9 event - so the error-events field does distinguish
the two cases, contrary to the claim. -/
theorem claim_C10_counterexample :
    stop_sandbox_poll "sb-1" "fail" teardownFetch [] [] 20 30 5 =
      some (.error (.teardownFailedException (stopRejectedMsg "fail") [])) ∧
    stop_sandbox_poll "sb-1" "success" teardownFetch [] [teardownErrorEvent] 20 30 5 =
      some (.error (.teardownFailedException (teardownFailedMsg "sb-1")
        [teardownErrorEvent])) ∧
    ([] : List SandboxEvent) ≠ [teardownErrorEvent] := by
  refine ⟨by decide, by decide, by decide⟩

/-- Claim C10 (amended): a stop acknowledgement without success makes
stop_sandbox raise TeardownFailedException with an empty error_events list
before any polling, the same exception type as a teardown-phase domain
failure, and the controller then records teardown_errors as that empty
list; a caller cannot distinguish the two cases by exception type, but can
by the error-events field, because a teardown poll failure always carries
at least one error event. -/
theorem claim_C10_stop_rejection (sandbox_id ack_result : String)
    (fetch : Nat → SandboxDetails) (history_pre history_post : List SandboxEvent)
    (max_polling_minutes polling_frequency_seconds fuel : Nat)
    (ctx : SandboxControllerContext) (msg : String) (d : Nat)
    (hack : stopAckSuccessful ack_result = false)
    (hctx : optStrTruthy ctx.sandbox_id = true) :
    stop_sandbox_poll sandbox_id ack_result fetch history_pre history_post
        max_polling_minutes polling_frequency_seconds fuel =
      some (.error (.teardownFailedException (stopRejectedMsg ack_result) [])) ∧
    (teardown_sandbox ctx (.error (.teardownFailedException msg [])) d).1.teardown_errors
      = some [] ∧
    (teardown_sandbox ctx (.error (.teardownFailedException msg [])) d).2.2
      = some (.apiError (.teardownFailedException msg [])) ∧
    (∀ (ack2 : String) (m2 : String) (events : List SandboxEvent),
      stopAckSuccessful ack2 = true →
      stop_sandbox_poll sandbox_id ack2 fetch history_pre history_post
          max_polling_minutes polling_frequency_seconds fuel =
        some (.error (.teardownFailedException m2 events)) →
      events ≠ []) := by
  refine ⟨?_, ?_, ?_, ?_⟩
  · unfold stop_sandbox_poll
    simp [hack]
  · unfold teardown_sandbox
    simp [hctx]
  · unfold teardown_sandbox
    simp [hctx]
  · intro ack2 m2 events hack2 h
    unfold stop_sandbox_poll at h
    rw [hack2] at h
    simp only [reduceCtorEq, if_false] at h
    unfold poll_sandbox_teardown at h
    rcases hps : _poll_orchestration_state fetch _should_keep_polling_teardown
        max_polling_minutes polling_frequency_seconds fuel with _ | r
    · rw [hps] at h
      cases h
    · rcases r with e | p
      · rw [hps] at h
        have he := _poll_orchestration_state_error_is_timeout fetch
          _should_keep_polling_teardown max_polling_minutes polling_frequency_seconds fuel e hps
        subst he
        simp at h
      · rw [hps] at h
        simp only at h
        by_cases hne : get_sandbox_activity history_post true
            (some (match get_sandbox_activity history_pre false none (some 1) with
              | e :: _ => e.id
              | [] => 0)) none ≠ []
        · rw [if_pos hne] at h
          injection h with h2
          injection h2 with h3
          injection h3 with h4 h5
          rw [← h5]
          exact hne
        · rw [if_neg hne] at h
          cases h

/-- Claim C10 witness: a stop acknowledgement reading fail is rejected
with an empty error_events list and the controller records teardown_errors
as the empty list. -/
theorem claim_C10_stop_rejection_witness :
    stopAckSuccessful "fail" = false ∧
    optStrTruthy launchedCtx.sandbox_id = true ∧
    stop_sandbox_poll "sb-1" "fail" teardownFetch [] [] 20 30 5 =
      some (.error (.teardownFailedException (stopRejectedMsg "fail") [])) ∧
    (teardown_sandbox launchedCtx
      (.error (.teardownFailedException "stop rejected" [])) 4).1.teardown_errors = some [] :=
  ⟨by decide, by decide,
    (claim_C10_stop_rejection "sb-1" "fail" teardownFetch [] [] 20 30 5 launchedCtx
      "stop rejected" 4 (by decide) (by decide)).1,
    (claim_C10_stop_rejection "sb-1" "fail" teardownFetch [] [] 20 30 5 launchedCtx
      "stop rejected" 4 (by decide) (by decide)).2.1⟩

end SandboxRest
